import Mathlib

/-!
Verification development for the `gslite` object-storage client
(`src/gslite.py`): a shallow embedding of its path/query encoding,
canonical string-to-sign construction, ACL XML codec, and the
retry/redirect/backoff request loop, together with theorems settling the
specification's testable properties.

Python dicts are modelled as association lists with unique keys
(lookup is first-match, insertion overwrites in place).  The wall clock
(`time.gmtime`) is modelled as an opaque date string parameter, and the
HMAC-SHA1/base64 signature step as an opaque function parameter
`sign : String → String`; no claim depends on the digest itself.
-/

namespace Gslite

/-! ## Python dict model -/

/-- Lookup in an association-list dict (first match, as in a dict with
unique keys). -/
def dictGet : List (String × String) → String → Option String
  | [], _ => none
  | (k, v) :: rest, k' => if k == k' then some v else dictGet rest k'

/-- Python `k in d`. -/
def containsKey (d : List (String × String)) (k : String) : Bool :=
  (dictGet d k).isSome

/-- Python `d[k] = v`: overwrite in place if the key exists, else append. -/
def dictInsert : List (String × String) → String → String → List (String × String)
  | [], k, v => [(k, v)]
  | (k', v') :: rest, k, v =>
    if k' == k then (k, v) :: rest else (k', v') :: dictInsert rest k v

/-- Python `d.keys()`. -/
def dictKeys (d : List (String × String)) : List String :=
  d.map Prod.fst

/-- Key membership for query-parameter dicts (values may be `None`). -/
def qContains : List (String × Option String) → String → Bool
  | [], _ => false
  | (k, _) :: rest, k' => k == k' || qContains rest k'

/-- Python truthiness of an optional string: `None` and `''` are falsy. -/
def truthyS : Option String → Bool
  | none => false
  | some s => s != ""

/-! ## Python string helpers -/

/-- The whitespace characters removed by Python 2's `str.strip()`. -/
def pyWhitespace (c : Char) : Bool :=
  c == ' ' || c == '\t' || c == '\n' || c == '\r' || c == '\x0b' || c == '\x0c'

/-- Python `s.strip()`. -/
def pyStrip (s : String) : String :=
  String.mk (((s.data.dropWhile pyWhitespace).reverse.dropWhile pyWhitespace).reverse)

/-- Uppercase hex digit (for `urllib.quote`'s `%XX` escapes). -/
def hexDigit (n : Nat) : Char :=
  if n < 10 then Char.ofNat (48 + n) else Char.ofNat (55 + n)

/-- Python 2 `urllib.quote` on one byte with the default `safe='/'`:
ASCII alphanumerics, `_`, `.`, `-` and the slash pass through, everything
else becomes `%XX` (uppercase hex of the byte). -/
def pyQuoteChar (c : Char) : String :=
  if c.isAlpha || c.isDigit || c == '_' || c == '.' || c == '-' || c == '/' then
    String.singleton c
  else
    "%" ++ String.mk [hexDigit (c.toNat / 16 % 16), hexDigit (c.toNat % 16)]

/-- Python 2 `urllib.quote(s)` (default `safe='/'`), on byte strings. -/
def pyQuote (s : String) : String :=
  s.data.foldl (fun acc c => acc ++ pyQuoteChar c) ""

/-- Does the second char list start with the first? -/
def charsStart : List Char → List Char → Bool
  | [], _ => true
  | _ :: _, [] => false
  | p :: ps, c :: cs => p == c && charsStart ps cs

/-- Python `s.startswith(pre)`. -/
def strStartsWith (s pre : String) : Bool :=
  charsStart pre.data s.data

/-- Join strings with a separator (Python `sep.join`). -/
def joinSep (sep : String) : List String → String
  | [] => ""
  | [s] => s
  | s :: rest => s ++ sep ++ joinSep sep rest

/-- Byte-wise (code-point) lexicographic order on char lists, as Python 2
compares `str` values. -/
def strLeChars : List Char → List Char → Bool
  | [], _ => true
  | _ :: _, [] => false
  | a :: as, b :: bs =>
    if a.toNat < b.toNat then true
    else if b.toNat < a.toNat then false
    else strLeChars as bs

/-- Python string `<=`. -/
def strLe (a b : String) : Bool :=
  strLeChars a.data b.data

/-- Insert into a sorted list (for modelling `list.sort()`). -/
def insertSorted (x : String) : List String → List String
  | [] => [x]
  | y :: ys => if strLe x y then x :: y :: ys else y :: insertSorted x ys

/-- Python `keys.sort()`: lexicographic insertion sort. -/
def sortStrings (l : List String) : List String :=
  l.foldr insertSorted []

/-- Concatenation of a list of strings. -/
def concatStrings : List String → String
  | [] => ""
  | s :: rest => s ++ concatStrings rest

/-! ## Request construction (`GsClient._get_path`, `_get_query_string`) -/

/-- `GsClient._get_path`: `'/' + quote(bucket) + '/' + quote(key)`, each
part only when truthy; the key is ignored without a truthy bucket. -/
def get_path (bucket key : Option String) : String :=
  "/" ++
    (if truthyS bucket then
      pyQuote (bucket.getD "") ++
        (if truthyS key then "/" ++ pyQuote (key.getD "") else "")
    else "")

/-- `GsClient._get_query_string`: `?name` or `?name=quotedvalue` items
joined by `&` (iteration order is the model's list order). -/
def get_query_string (qp : List (String × Option String)) : String :=
  if qp.isEmpty then ""
  else
    "?" ++ joinSep "&"
      (qp.map (fun p =>
        p.1 ++ (if truthyS p.2 then "=" ++ pyQuote (p.2.getD "") else "")))

/-! ## Signer (`GsClient._get_authentication`) -/

/-- The subresource suffix of the signed resource: the first of
`acl`, `location`, `logging`, `torrent` present among the query keys,
rendered as `?name`; nothing when the query dict is falsy or none match. -/
def subresource_suffix (qp : List (String × Option String)) : String :=
  if qp.isEmpty then ""
  else
    match ["acl", "location", "logging", "torrent"].find? (fun s => qContains qp s) with
    | some s => "?" ++ s
    | none => ""

/-- The extension-header block of the string-to-sign: iterate the sorted
header keys and emit `name:value\n` for each `x-goog-` prefixed name
(direct translation of the source's write loop). -/
def extensionLines (headers : List (String × String)) : String :=
  (sortStrings (dictKeys headers)).foldl
    (fun acc k =>
      if strStartsWith k "x-goog-" then
        acc ++ (k ++ ":" ++ (dictGet headers k).getD "" ++ "\n")
      else acc)
    ""

/-- The Content-MD5 line of the string-to-sign: the stripped header value
when present, else empty. -/
def md5Component (headers : List (String × String)) : String :=
  match dictGet headers "Content-MD5" with
  | some v => pyStrip v
  | none => ""

/-- The Content-Type line of the string-to-sign: the stripped header value
when present, else empty. -/
def ctComponent (headers : List (String × String)) : String :=
  match dictGet headers "Content-Type" with
  | some v => pyStrip v
  | none => ""

/-- The Date line of the string-to-sign: the Date header value, written
only when no `x-goog-date` header is present. -/
def dateComponent (headers : List (String × String)) : String :=
  if !containsKey headers "x-goog-date" && containsKey headers "Date" then
    (dictGet headers "Date").getD ""
  else ""

/-- The canonical string-to-sign built by `GsClient._get_authentication`:
method, stripped Content-MD5, stripped Content-Type, Date (suppressed when
an `x-goog-date` header exists), sorted `x-goog-` header lines, and the
path with at most one subresource. -/
def string_to_sign (m : String) (headers : List (String × String))
    (path : String) (qp : List (String × Option String)) : String :=
  m ++ "\n" ++
    md5Component headers ++ "\n" ++
    ctComponent headers ++ "\n" ++
    dateComponent headers ++ "\n" ++
    extensionLines headers ++
    path ++ subresource_suffix qp

/-- The claim's reference definition of the string-to-sign, following the
specification's words: newline-joined method, Content-MD5 value if present
else empty, Content-Type value if present else empty, Date value or empty
when suppressed, each `x-goog-` header as `name:value\n` sorted by name,
then the path with at most one subresource. -/
def specStringToSign (m : String) (headers : List (String × String))
    (path : String) (qp : List (String × Option String)) : String :=
  m ++ "\n" ++
    (dictGet headers "Content-MD5").getD "" ++ "\n" ++
    (dictGet headers "Content-Type").getD "" ++ "\n" ++
    (if containsKey headers "x-goog-date" then ""
      else (dictGet headers "Date").getD "") ++ "\n" ++
    concatStrings
      (((sortStrings (dictKeys headers)).filter (fun k => strStartsWith k "x-goog-")).map
        (fun k => k ++ ":" ++ (dictGet headers k).getD "" ++ "\n")) ++
    path ++ subresource_suffix qp

/-- The reference definition amended with Python's `.strip()` applied to
the Content-MD5 and Content-Type values, as the source does. -/
def specStringToSignStripped (m : String) (headers : List (String × String))
    (path : String) (qp : List (String × Option String)) : String :=
  m ++ "\n" ++
    pyStrip ((dictGet headers "Content-MD5").getD "") ++ "\n" ++
    pyStrip ((dictGet headers "Content-Type").getD "") ++ "\n" ++
    (if containsKey headers "x-goog-date" then ""
      else (dictGet headers "Date").getD "") ++ "\n" ++
    concatStrings
      (((sortStrings (dictKeys headers)).filter (fun k => strStartsWith k "x-goog-")).map
        (fun k => k ++ ":" ++ (dictGet headers k).getD "" ++ "\n")) ++
    path ++ subresource_suffix qp

/-! ## Client configuration and headers -/

/-- Status-code sets from the module head of `gslite.py`. -/
def REDIRECT_CODES : List Nat := [301, 302, 303, 307]

/-- Default success codes. -/
def DEFAULT_SUCCESS_CODES : List Nat := [200]

/-- Default retryable codes. -/
def DEFAULT_RETRYABLE_CODES : List Nat := [408, 500, 502, 503, 504]

/-- The immutable per-client configuration set in `GsClient.__init__`. -/
structure GsClientCfg where
  access_key : Option String := none
  secret : Option String := none
  host : String := "commondatastorage.googleapis.com"
  proxy_host : Option String := none
  proxy_port : Nat := 80
  auth_id : String := "GOOG1"
  max_retries : Nat := 5
  max_redirects : Nat := 10

/-- `GsClient._get_authentication`'s result: `"<auth_id> <access_key>:<sig>"`,
with the HMAC-SHA1/base64 step abstracted as `sign`. -/
def get_authentication (c : GsClientCfg) (sign : String → String)
    (m path : String) (qp : List (String × Option String))
    (headers : List (String × String)) : String :=
  c.auth_id ++ " " ++ c.access_key.getD "" ++ ":" ++
    sign (string_to_sign m headers path qp)

/-- `GsClient._get_request_headers`: Content-Length (the stream length, or
`'0'` with no body), Date (the clock, modelled as `dateStr`), Host,
User-Agent, then caller extras (which win on conflict), then the
Authorization header when both credentials are truthy. -/
def get_request_headers (c : GsClientCfg) (sign : String → String)
    (dateStr : String) (m path : String) (qp : List (String × Option String))
    (extra_headers : List (String × String)) (infileLen : Option Nat) :
    List (String × String) :=
  let h := dictInsert [] "Content-Length"
    (match infileLen with
      | some n => toString n
      | none => "0")
  let h := dictInsert h "Date" dateStr
  let h := dictInsert h "Host" c.host
  let h := dictInsert h "User-Agent" "gslite/1.0"
  let h := extra_headers.foldl (fun acc kv => dictInsert acc kv.1 kv.2) h
  if truthyS c.access_key && truthyS c.secret then
    dictInsert h "Authorization" (get_authentication c sign m path qp h)
  else h

/-! ## URL parsing for redirects -/

/-- The components of `urlparse.urlparse` that the redirect path uses. -/
structure UrlParts where
  scheme : String
  netloc : String
  path : String
  query : String

/-- Split a char list at the first `://`, when present. -/
def findSchemeSplit : List Char → Option (List Char × List Char)
  | [] => none
  | ':' :: '/' :: '/' :: rest => some ([], rest)
  | c :: rest => (findSchemeSplit rest).map (fun p => (c :: p.1, p.2))

/-- Decimal reading of a digit list (Python `int` on the port; `int`
raises on garbage, which no claim exercises — the model totalises). -/
def decimalNat (l : List Char) : Nat :=
  l.foldl (fun acc c => acc * 10 + (c.toNat - 48)) 0

/-- `urlparse.urlparse` restricted to the shapes a Location header takes
(`scheme://netloc/path?query`, fragments split off and dropped). -/
def pyUrlparse (url : String) : UrlParts :=
  match findSchemeSplit url.data with
  | none =>
    let noFrag := url.data.takeWhile (fun c => c != '#')
    { scheme := "", netloc := ""
      path := String.mk (noFrag.takeWhile (fun c => c != '?'))
      query := String.mk ((noFrag.dropWhile (fun c => c != '?')).drop 1) }
  | some (scheme, rest) =>
    let netloc := rest.takeWhile (fun c => c != '/' && c != '?' && c != '#')
    let after := rest.drop netloc.length
    let noFrag := after.takeWhile (fun c => c != '#')
    { scheme := String.mk scheme, netloc := String.mk netloc
      path := String.mk (noFrag.takeWhile (fun c => c != '?'))
      query := String.mk ((noFrag.dropWhile (fun c => c != '?')).drop 1) }

/-- `netloc.split(':')`: host before the first colon, port between the
first and second colon (default 80 without a colon). -/
def splitHostPort (netloc : String) : String × Nat :=
  let host := netloc.data.takeWhile (fun c => c != ':')
  let rest := netloc.data.dropWhile (fun c => c != ':')
  match rest with
  | [] => (String.mk host, 80)
  | _ :: tail => (String.mk host, decimalNat (tail.takeWhile (fun c => c != ':')))

/-! ## Operations and the request executor -/

/-- `GsOperation`: one HTTP attempt's request/response record.  The source
initialises `request_headers`/`response_headers` to `None`; the model uses
the empty dict, which no code path distinguishes. -/
structure GsOperation where
  connection_host : String := ""
  connection_port : Nat := 80
  request_method : String := ""
  request_path_and_query : String := ""
  request_headers : List (String × String) := []
  response_status : Nat := 0
  response_headers : List (String × String) := []
  response_error_body : Option String := none
deriving DecidableEq, Inhabited

/-- One scripted transport response: status line, headers, and the body the
server would deliver. -/
structure GsResponse where
  status : Nat
  headers : List (String × String) := []
  body : String := ""
deriving DecidableEq, Inhabited

/-- What `GsClient._exec_operation` produces: the populated operation and
the bytes streamed to the caller's outfile (if any). -/
structure ExecResult where
  operation : GsOperation
  outfile_written : Option String
deriving DecidableEq

/-- `GsClient._exec_operation` against one scripted response: record status
and headers; then, only for non-HEAD methods, either stream the body to the
outfile (success status) or capture it as the error body. -/
def exec_operation (op : GsOperation) (r : GsResponse)
    (success_status_codes : List Nat) (hasOutfile : Bool) : ExecResult :=
  let op := { op with response_status := r.status, response_headers := r.headers }
  if op.request_method != "HEAD" then
    if success_status_codes.contains op.response_status then
      { operation := op,
        outfile_written := if hasOutfile then some r.body else none }
    else
      { operation := { op with response_error_body := some r.body },
        outfile_written := none }
  else
    { operation := op, outfile_written := none }

/-- `GsClient._create_init_operation`. -/
def create_init_operation (c : GsClientCfg) (sign : String → String)
    (dateStr : String) (http_method : String) (bucket key : Option String)
    (extra_headers : List (String × String))
    (query_parameters : List (String × Option String))
    (infileLen : Option Nat) : GsOperation :=
  let path := get_path bucket key
  let query_string := get_query_string query_parameters
  { connection_host := if truthyS c.proxy_host then c.proxy_host.getD "" else c.host
    connection_port := if truthyS c.proxy_host then c.proxy_port else 80
    request_method := http_method
    request_path_and_query := path ++ query_string
    request_headers :=
      get_request_headers c sign dateStr http_method path query_parameters
        extra_headers infileLen }

/-- `GsClient._create_redirect_operation`: reuse the previous method, take
host/port/path/query from the Location URL, copy the previous headers and
overwrite Host with the new netloc. -/
def create_redirect_operation (c : GsClientCfg) (prev : GsOperation)
    (location : String) : GsOperation :=
  let parts := pyUrlparse location
  let hp :=
    if truthyS c.proxy_host then (c.proxy_host.getD "", c.proxy_port)
    else splitHostPort parts.netloc
  { connection_host := hp.1
    connection_port := hp.2
    request_method := prev.request_method
    request_path_and_query :=
      parts.path ++ (if parts.query != "" then "?" ++ parts.query else "")
    request_headers := dictInsert prev.request_headers "Host" parts.netloc }

/-- `GsClient._backoff_decrement`: toward a minimum of -1 (off). -/
def backoff_decrement (b : Int) : Int :=
  if b > -1 then b - 1 else b

/-- `GsClient._backoff_increment`: toward a maximum of 5. -/
def backoff_increment (b : Int) : Int :=
  if b < 5 then b + 1 else b

/-- Outcome of a `send_request` call.  `keyErrorNoLocation` models the
uncaught `KeyError` when a redirect response lacks a Location header, and
`scriptExhausted` is the model artifact for a transport script shorter than
the attempts the loop would make; neither occurs in any claim scenario. -/
inductive SendResult where
  | success (ops : List GsOperation)
  | serviceFailure (ops : List GsOperation)
  | keyErrorNoLocation (ops : List GsOperation)
  | scriptExhausted (ops : List GsOperation)
deriving DecidableEq

/-- The diagnostic operation list carried by any outcome. -/
def SendResult.ops : SendResult → List GsOperation
  | .success l => l
  | .serviceFailure l => l
  | .keyErrorNoLocation l => l
  | .scriptExhausted l => l

/-- Whether the outcome is the non-error return. -/
def SendResult.isSuccess : SendResult → Bool
  | .success _ => true
  | _ => false

/-- Whether the outcome is a raised `GsError` (ServiceFailure). -/
def SendResult.isServiceFailure : SendResult → Bool
  | .serviceFailure _ => true
  | _ => false

/-- The non-config arguments of one `send_request` call. -/
structure RequestArgs where
  http_method : String
  bucket : Option String := none
  key : Option String := none
  extra_headers : List (String × String) := []
  query_parameters : List (String × Option String) := []
  infileLen : Option Nat := none
  hasOutfile : Bool := false
  success_status_codes : List Nat := DEFAULT_SUCCESS_CODES
  retryable_status_codes : List Nat := DEFAULT_RETRYABLE_CODES

/-- The `while` loop of `GsClient.send_request`, one scripted response per
attempt: bounded by the retry and redirect counters, building a fresh or
redirect operation, executing it, appending it to the diagnostic list, and
dispatching on success / redirect / retryable / fatal status.  Returns the
outcome together with the client's backoff exponent after the call. -/
def send_loop (c : GsClientCfg) (sign : String → String) (dateStr : String)
    (a : RequestArgs) (script : List GsResponse) (prevOp : Option GsOperation)
    (redirectLoc : Option String) (retries redirects : Nat) (backoff : Int)
    (ops : List GsOperation) : SendResult × Int :=
  if retries ≤ c.max_retries ∧ redirects ≤ c.max_redirects then
    match script with
    | [] => (SendResult.scriptExhausted ops, backoff)
    | r :: rest =>
      let op :=
        match redirectLoc with
        | some loc => create_redirect_operation c (prevOp.getD default) loc
        | none =>
          create_init_operation c sign dateStr a.http_method a.bucket a.key
            a.extra_headers a.query_parameters a.infileLen
      let op := (exec_operation op r a.success_status_codes a.hasOutfile).operation
      let ops' := ops ++ [op]
      if a.success_status_codes.contains op.response_status then
        (SendResult.success ops', backoff_decrement backoff)
      else if REDIRECT_CODES.contains op.response_status then
        match dictGet op.response_headers "location" with
        | none => (SendResult.keyErrorNoLocation ops', backoff_decrement backoff)
        | some loc =>
          send_loop c sign dateStr a rest (some op) (some loc) retries
            (redirects + 1) (backoff_decrement backoff) ops'
      else if a.retryable_status_codes.contains op.response_status then
        send_loop c sign dateStr a rest (some op) none (retries + 1) redirects
          (backoff_increment backoff) ops'
      else
        (SendResult.serviceFailure ops', backoff_increment backoff)
  else
    (SendResult.serviceFailure ops, backoff)

/-- `GsClient.send_request`: run the loop from a fresh diagnostic list with
both counters at zero, starting from the client's current backoff
exponent. -/
def send_request (c : GsClientCfg) (sign : String → String) (dateStr : String)
    (a : RequestArgs) (script : List GsResponse) (backoff : Int) :
    SendResult × Int :=
  send_loop c sign dateStr a script none none 0 0 backoff []

/-! ## XML codec (`GsXmlBase`, `GsAccessControlList`)

The `xml.dom.minidom` string layer (`parseString` / `toxml`) is the
external stdlib collaborator; it is modelled as the identity on document
trees, so serialisation builds an `Xml` tree exactly as `to_xml` builds
the DOM and parsing traverses that tree exactly as `parse_xml` traverses
the parsed DOM. -/

/-- A DOM node: an element with a tag, attributes and children, or a
text node. -/
inductive Xml where
  | element (tag : String) (attrs : List (String × String)) (children : List Xml)
  | text (s : String)

/-- The children of a node (text nodes have none). -/
def Xml.children : Xml → List Xml
  | .element _ _ c => c
  | .text _ => []

mutual

/-- The contribution of one node to `getElementsByTagName`: the node
itself when it is a matching element, then its matching descendants, in
document (preorder) order. -/
def elemsInNode (tag : String) : Xml → List Xml
  | .text _ => []
  | .element t a c =>
    (if t == tag then [Xml.element t a c] else []) ++ elemsByTagList tag c

/-- `minidom`'s `getElementsByTagName` over a sibling forest. -/
def elemsByTagList (tag : String) : List Xml → List Xml
  | [] => []
  | x :: rest => elemsInNode tag x ++ elemsByTagList tag rest

end

/-- `node.getElementsByTagName(tag)`: descendants of the node only. -/
def Xml.byTag (x : Xml) (tag : String) : List Xml :=
  elemsByTagList tag x.children

/-- `element.getAttribute(name)`: the attribute value, or `''` when
absent. -/
def Xml.getAttribute (x : Xml) (name : String) : String :=
  match x with
  | .element _ attrs _ => (dictGet attrs name).getD ""
  | .text _ => ""

mutual

/-- Whether a node or one of its descendants is an element with the tag. -/
def hasTagNode (tag : String) : Xml → Bool
  | .text _ => false
  | .element t _ c => t == tag || hasTagList tag c

/-- Whether some element in the forest (including descendants) has the
tag. -/
def hasTagList (tag : String) : List Xml → Bool
  | [] => false
  | x :: rest => hasTagNode tag x || hasTagList tag rest

end

/-- `GsXmlBase.value_from_elems`: the text of the last child of the last
matched element, `''` when the list or the child list is empty.  A non-text
last child has `nodeValue` `None`, which `str` renders as `'None'`. -/
def value_from_elems (elems : List Xml) : String :=
  match elems.getLast? with
  | none => ""
  | some e =>
    match e.children.getLast? with
    | none => ""
    | some (.text s) => s
    | some (.element _ _ _) => "None"

/-- `GsAccessControlList.Entry`: all fields optional strings, absence as
`''`. -/
structure AclEntry where
  permission : String := ""
  scope_type : String := ""
  scope_user_id : String := ""
  scope_user_name : String := ""
  scope_email : String := ""
  scope_domain : String := ""
deriving DecidableEq, Inhabited

/-- `GsAccessControlList`. -/
structure GsAccessControlList where
  owner_id : String := ""
  owner_name : String := ""
  entries : List AclEntry := []
deriving DecidableEq, Inhabited

/-- A `<name>text</name>` element, as `GsXmlBase.add_text_node` builds. -/
def textElem (name s : String) : Xml :=
  .element name [] [.text s]

/-- Whether any scope field of an entry is non-empty (the `to_xml`
condition for emitting `<Scope>`). -/
def anyScope (e : AclEntry) : Bool :=
  e.scope_type != "" || e.scope_user_id != "" || e.scope_user_name != "" ||
    e.scope_email != "" || e.scope_domain != ""

/-- The children of the generated `<Scope>` element: the optional ID /
Name / EmailAddress / Domain text nodes, each emitted only when
non-empty. -/
def scopeChildren (e : AclEntry) : List Xml :=
  (if e.scope_user_id != "" then [textElem "ID" e.scope_user_id] else []) ++
    (if e.scope_user_name != "" then [textElem "Name" e.scope_user_name] else []) ++
    (if e.scope_email != "" then [textElem "EmailAddress" e.scope_email] else []) ++
    (if e.scope_domain != "" then [textElem "Domain" e.scope_domain] else [])

/-- The generated `<Scope>` element: the `type` attribute only when
non-empty, and the optional scope children. -/
def scopeElem (e : AclEntry) : Xml :=
  .element "Scope" (if e.scope_type != "" then [("type", e.scope_type)] else [])
    (scopeChildren e)

/-- The children of the generated `<Entry>` element: an optional
`<Permission>` followed by the `<Scope>` element when any scope field is
non-empty. -/
def entryChildren (e : AclEntry) : List Xml :=
  (if e.permission != "" then [textElem "Permission" e.permission] else []) ++
    (if anyScope e then [scopeElem e] else [])

/-- The `<Entry>` element `GsAccessControlList.to_xml` builds. -/
def entryToXml (e : AclEntry) : Xml :=
  .element "Entry" [] (entryChildren e)

/-- The children of the generated `<Owner>` element: only the non-empty
owner fields. -/
def ownerChildren (acl : GsAccessControlList) : List Xml :=
  (if acl.owner_id != "" then [textElem "ID" acl.owner_id] else []) ++
    (if acl.owner_name != "" then [textElem "Name" acl.owner_name] else [])

/-- The generated `<Owner>` element. -/
def ownerElem (acl : GsAccessControlList) : Xml :=
  .element "Owner" [] (ownerChildren acl)

/-- The generated `<Entries>` element, holding one `<Entry>` per entry in
order. -/
def entriesElem (acl : GsAccessControlList) : Xml :=
  .element "Entries" [] (acl.entries.map entryToXml)

/-- `GsAccessControlList.to_xml` as a document tree: the
`<AccessControlList>` root with an optional `<Owner>` (only when an owner
field is non-empty) and an optional `<Entries>` (only when there are
entries). -/
def aclToXml (acl : GsAccessControlList) : Xml :=
  .element "AccessControlList" []
    ((if acl.owner_id != "" || acl.owner_name != "" then [ownerElem acl] else []) ++
      (if acl.entries.isEmpty then [] else [entriesElem acl]))

/-- The per-`<Entry>` part of `GsAccessControlList.parse_xml`: permission
from the `<Permission>` descendants, then each `<Scope>` descendant
overwrites the five scope fields (last wins). -/
def parseEntry (entry_elem : Xml) : AclEntry :=
  let e0 : AclEntry := { permission := value_from_elems (entry_elem.byTag "Permission") }
  (entry_elem.byTag "Scope").foldl
    (fun acc se =>
      { acc with
        scope_type := se.getAttribute "type"
        scope_user_id := value_from_elems (se.byTag "ID")
        scope_user_name := value_from_elems (se.byTag "Name")
        scope_email := value_from_elems (se.byTag "EmailAddress")
        scope_domain := value_from_elems (se.byTag "Domain") })
    e0

/-- `GsAccessControlList.parse_xml` on a document tree: each `<Owner>`
found anywhere overwrites the owner fields (last wins), and the entries
are the parsed `<Entry>` descendants of every `<Entries>` found, in
document order. -/
def parseAcl (root : Xml) : GsAccessControlList :=
  let owner :=
    (elemsByTagList "Owner" [root]).foldl
      (fun _ oe =>
        (value_from_elems (oe.byTag "ID"), value_from_elems (oe.byTag "Name")))
      ("", "")
  let entries :=
    (elemsByTagList "Entries" [root]).flatMap
      (fun ee => (ee.byTag "Entry").map parseEntry)
  { owner_id := owner.1, owner_name := owner.2, entries := entries }

/-! ## Helper lemmas -/

theorem strAppend_assoc (a b c : String) : a ++ b ++ c = a ++ (b ++ c) := by
  cases a; cases b; cases c
  simp only [HAppend.hAppend, Append.append, String.append]
  exact congrArg String.mk (List.append_assoc _ _ _)

theorem foldl_lines_eq (p : String → Bool) (line : String → String)
    (l : List String) (acc : String) :
    l.foldl (fun a k => if p k then a ++ line k else a) acc =
      acc ++ concatStrings ((l.filter p).map line) := by
  induction l generalizing acc with
  | nil => simp [concatStrings]
  | cons x xs ih =>
    by_cases h : p x <;>
      simp [h, ih, concatStrings, strAppend_assoc, List.filter_cons]

/-- The extension-header write loop of the source equals the
filter/map/concat form of the specification's words. -/
theorem extensionLines_eq (headers : List (String × String)) :
    extensionLines headers =
      concatStrings
        (((sortStrings (dictKeys headers)).filter
            (fun k => strStartsWith k "x-goog-")).map
          (fun k => k ++ ":" ++ (dictGet headers k).getD "" ++ "\n")) := by
  unfold extensionLines
  rw [foldl_lines_eq]
  simp

/-- `exec_operation` in one equation: status and headers are recorded
unconditionally, the error body is captured exactly for non-HEAD non-success
responses, and nothing else of the operation changes. -/
theorem exec_operation_operation_eq (op : GsOperation) (r : GsResponse)
    (sc : List Nat) (ho : Bool) :
    (exec_operation op r sc ho).operation =
      { op with
        response_status := r.status
        response_headers := r.headers
        response_error_body :=
          if op.request_method != "HEAD" && !(sc.contains r.status) then some r.body
          else op.response_error_body } := by
  unfold exec_operation
  by_cases h1 : op.request_method != "HEAD" <;>
    by_cases h2 : r.status ∈ sc <;>
      simp [h1, h2]

/-! ## C1: the Signer's string-to-sign -/

/-- C1 (counterexample): the string-to-sign does not equal the spec's
reference definition on every request — the source strips surrounding
whitespace from the Content-MD5 (and Content-Type) value, the reference
definition signs the raw header value. -/
theorem string_to_sign_cex :
    string_to_sign "GET" [("Content-MD5", " a ")] "/b" [] ≠
      specStringToSign "GET" [("Content-MD5", " a ")] "/b" [] := by
  decide

/-- C1 (amended): the Signer's string-to-sign equals the spec's reference
definition amended to strip surrounding whitespace from the Content-MD5 and
Content-Type values; and on the concrete request of the claim (method GET,
no Content-MD5/Content-Type, the given Date, headers x-goog-acl=private and
x-goog-meta-a=1, path /bucket/key, query {acl: None}) it is exactly the
claimed string. -/
theorem string_to_sign_matches_spec :
    (∀ (m : String) (headers : List (String × String)) (path : String)
        (qp : List (String × Option String)),
      string_to_sign m headers path qp = specStringToSignStripped m headers path qp) ∧
    string_to_sign "GET"
        [("Date", "Tue, 01 Jan 2013 00:00:00 GMT"), ("x-goog-acl", "private"),
          ("x-goog-meta-a", "1")]
        "/bucket/key" [("acl", none)] =
      "GET\n\n\nTue, 01 Jan 2013 00:00:00 GMT\nx-goog-acl:private\nx-goog-meta-a:1\n/bucket/key?acl" := by
  constructor
  · intro m headers path qp
    unfold string_to_sign specStringToSignStripped
    rw [extensionLines_eq]
    have h1 : md5Component headers = pyStrip ((dictGet headers "Content-MD5").getD "") := by
      unfold md5Component
      cases dictGet headers "Content-MD5" <;> rfl
    have h2 : ctComponent headers = pyStrip ((dictGet headers "Content-Type").getD "") := by
      unfold ctComponent
      cases dictGet headers "Content-Type" <;> rfl
    have h3 : dateComponent headers =
        (if containsKey headers "x-goog-date" then ""
          else (dictGet headers "Date").getD "") := by
      unfold dateComponent containsKey
      cases dictGet headers "x-goog-date" <;> cases hD : dictGet headers "Date" <;>
        simp [hD]
    rw [h1, h2, h3]
  · decide

/-! ## C3: path percent-encoding -/

/-- C3 (counterexample): the path for bucket "my bucket" and key "a/b c"
is not `/my%20bucket/a%2Fb%20c` — `urllib.quote`'s default safe set keeps
the slash unescaped. -/
theorem get_path_cex :
    get_path (some "my bucket") (some "a/b c") ≠ "/my%20bucket/a%2Fb%20c" := by
  decide

/-- C3 (amended): path construction percent-encodes reserved characters in
bucket and object names except the slash, which `urllib.quote` leaves as a
safe character: for bucket "my bucket" and key "a/b c" the request path is
exactly `/my%20bucket/a/b%20c` (space encoded, object-name slash kept as a
path separator). -/
theorem get_path_encoding :
    get_path (some "my bucket") (some "a/b c") = "/my%20bucket/a/b%20c" ∧
    pyQuoteChar ' ' = "%20" ∧ pyQuoteChar '/' = "/" := by
  decide

/-! ## C8: x-goog-date suppresses the Date line -/

/-- C8: whenever the header map contains an `x-goog-date` header, the Date
position of the string-to-sign is empty — regardless of whether a `Date`
header is also present. -/
theorem xgoog_date_suppresses_date (m : String) (headers : List (String × String))
    (path : String) (qp : List (String × Option String))
    (h : containsKey headers "x-goog-date" = true) :
    dateComponent headers = "" ∧
    string_to_sign m headers path qp =
      m ++ "\n" ++ md5Component headers ++ "\n" ++ ctComponent headers ++ "\n" ++
        "" ++ "\n" ++ extensionLines headers ++ path ++ subresource_suffix qp := by
  have hd : dateComponent headers = "" := by
    unfold dateComponent
    rw [h]
    rfl
  exact ⟨hd, by rw [string_to_sign, hd]⟩

/-- C8 (witness): with both an `x-goog-date` and a `Date` header present,
the Date slot of the string-to-sign is empty. -/
theorem xgoog_date_suppresses_date_witness :
    containsKey [("x-goog-date", "D"), ("Date", "E")] "x-goog-date" = true ∧
    (dateComponent [("x-goog-date", "D"), ("Date", "E")] = "" ∧
      string_to_sign "GET" [("x-goog-date", "D"), ("Date", "E")] "/b" [] =
        "GET" ++ "\n" ++ md5Component [("x-goog-date", "D"), ("Date", "E")] ++ "\n" ++
          ctComponent [("x-goog-date", "D"), ("Date", "E")] ++ "\n" ++ "" ++ "\n" ++
          extensionLines [("x-goog-date", "D"), ("Date", "E")] ++ "/b" ++
          subresource_suffix []) :=
  ⟨by decide,
    xgoog_date_suppresses_date "GET" [("x-goog-date", "D"), ("Date", "E")] "/b" []
      (by decide)⟩

/-! ## C9: the key is ignored without a bucket -/

/-- C9: for every key and an absent (`None` or empty) bucket, path
construction ignores the key entirely and returns `/`. -/
theorem get_path_no_bucket (key : Option String) :
    get_path none key = "/" ∧ get_path (some "") key = "/" :=
  ⟨rfl, rfl⟩

/-! ## C10: HEAD requests never read a body -/

/-- C10: for a HEAD request, `_exec_operation` records the response status
and headers but leaves the error body unchanged (unset) and writes nothing
to the outfile, whatever the status. -/
theorem head_reads_no_body (op : GsOperation) (r : GsResponse) (sc : List Nat)
    (ho : Bool) (h : op.request_method = "HEAD") :
    (exec_operation op r sc ho).operation.response_status = r.status ∧
    (exec_operation op r sc ho).operation.response_headers = r.headers ∧
    (exec_operation op r sc ho).operation.response_error_body = op.response_error_body ∧
    (exec_operation op r sc ho).outfile_written = none := by
  unfold exec_operation
  simp [h]

/-- C10 (witness): a concrete HEAD operation with a 404 response keeps its
error body unset while status and headers are recorded. -/
theorem head_reads_no_body_witness :
    ({ request_method := "HEAD" } : GsOperation).request_method = "HEAD" ∧
    ((exec_operation { request_method := "HEAD" } ⟨404, [("x", "y")], "err"⟩
        [200] true).operation.response_status = 404 ∧
      (exec_operation { request_method := "HEAD" } ⟨404, [("x", "y")], "err"⟩
        [200] true).operation.response_headers = [("x", "y")] ∧
      (exec_operation { request_method := "HEAD" } ⟨404, [("x", "y")], "err"⟩
        [200] true).operation.response_error_body =
        ({ request_method := "HEAD" } : GsOperation).response_error_body ∧
      (exec_operation { request_method := "HEAD" } ⟨404, [("x", "y")], "err"⟩
        [200] true).outfile_written = none) :=
  ⟨rfl, head_reads_no_body { request_method := "HEAD" } ⟨404, [("x", "y")], "err"⟩
    [200] true rfl⟩

/-! ## Backoff arithmetic -/

theorem backoff_increment_bounds (b : Int) (h1 : -1 ≤ b) (h2 : b ≤ 5) :
    -1 ≤ backoff_increment b ∧ backoff_increment b ≤ 5 := by
  unfold backoff_increment
  split_ifs <;> omega

theorem backoff_decrement_bounds (b : Int) (h1 : -1 ≤ b) (h2 : b ≤ 5) :
    -1 ≤ backoff_decrement b ∧ backoff_decrement b ≤ 5 := by
  unfold backoff_decrement
  split_ifs <;> omega

/-- Two clamped increments followed by one clamped decrement, in closed
form on the reachable range. -/
theorem backoff_dec_inc_inc (b : Int) (h1 : -1 ≤ b) (h2 : b ≤ 5) :
    backoff_decrement (backoff_increment (backoff_increment b)) = min 4 (b + 1) := by
  unfold backoff_increment backoff_decrement
  split_ifs <;> omega

/-! ## C2: the retry loop on [503, 503, 200] -/

/-- C2 (counterexample): with `max_retries = 5`, initial backoff exponent
-1 and response statuses [503, 503, 200], the call does record 3 operations
and succeed, but the final backoff exponent is 0 (two clamped increments,
one clamped decrement), not max(-1, initial - 1) = -1. -/
theorem send_request_retry_cex :
    ¬((send_request { max_retries := 5 } (fun _ => "SIG") "D" { http_method := "GET" }
          [⟨503, [], "e"⟩, ⟨503, [], "e"⟩, ⟨200, [], "ok"⟩] (-1)).1.isSuccess = true ∧
      (send_request { max_retries := 5 } (fun _ => "SIG") "D" { http_method := "GET" }
          [⟨503, [], "e"⟩, ⟨503, [], "e"⟩, ⟨200, [], "ok"⟩] (-1)).1.ops.length = 3 ∧
      (send_request { max_retries := 5 } (fun _ => "SIG") "D" { http_method := "GET" }
          [⟨503, [], "e"⟩, ⟨503, [], "e"⟩, ⟨200, [], "ok"⟩] (-1)).2 =
        max (-1) ((-1) - 1)) := by
  decide

/-- C2 (amended): for every client with `max_retries = 5` and the default
success/retryable code sets, a `send_request` whose transport returns
statuses [503, 503, 200] records exactly 3 Operations, returns
successfully, and leaves the backoff exponent at min(4, initial + 1) —
each 503 increments (clamped at 5) and the success decrements (clamped at
-1) — for any reachable initial exponent in [-1, 5]. -/
theorem send_request_retry_503 (c : GsClientCfg) (hmr : c.max_retries = 5)
    (sign : String → String) (dateStr : String) (a : RequestArgs)
    (hsc : a.success_status_codes = DEFAULT_SUCCESS_CODES)
    (hrc : a.retryable_status_codes = DEFAULT_RETRYABLE_CODES)
    (hs1 hs2 hs3 : List (String × String)) (b1 b2 b3 : String)
    (b0 : Int) (hlo : -1 ≤ b0) (hhi : b0 ≤ 5) :
    (send_request c sign dateStr a
        [⟨503, hs1, b1⟩, ⟨503, hs2, b2⟩, ⟨200, hs3, b3⟩] b0).1.isSuccess = true ∧
    (send_request c sign dateStr a
        [⟨503, hs1, b1⟩, ⟨503, hs2, b2⟩, ⟨200, hs3, b3⟩] b0).1.ops.length = 3 ∧
    (send_request c sign dateStr a
        [⟨503, hs1, b1⟩, ⟨503, hs2, b2⟩, ⟨200, hs3, b3⟩] b0).2 = min 4 (b0 + 1) := by
  unfold send_request
  simp [send_loop, hmr, hsc, hrc, exec_operation_operation_eq,
    DEFAULT_SUCCESS_CODES, DEFAULT_RETRYABLE_CODES, REDIRECT_CODES,
    SendResult.isSuccess, SendResult.ops, backoff_dec_inc_inc b0 hlo hhi]

/-- C2 (witness): the amended statement at a concrete client and initial
exponent -1: three operations, success, final exponent min(4, 0) = 0. -/
theorem send_request_retry_witness :
    ({ max_retries := 5 } : GsClientCfg).max_retries = 5 ∧
    ({ http_method := "GET" } : RequestArgs).success_status_codes = DEFAULT_SUCCESS_CODES ∧
    ({ http_method := "GET" } : RequestArgs).retryable_status_codes = DEFAULT_RETRYABLE_CODES ∧
    (-1 : Int) ≤ -1 ∧ (-1 : Int) ≤ 5 ∧
    ((send_request { max_retries := 5 } (fun _ => "SIG") "D" { http_method := "GET" }
        [⟨503, [], "e"⟩, ⟨503, [], "e"⟩, ⟨200, [], "ok"⟩] (-1)).1.isSuccess = true ∧
      (send_request { max_retries := 5 } (fun _ => "SIG") "D" { http_method := "GET" }
        [⟨503, [], "e"⟩, ⟨503, [], "e"⟩, ⟨200, [], "ok"⟩] (-1)).1.ops.length = 3 ∧
      (send_request { max_retries := 5 } (fun _ => "SIG") "D" { http_method := "GET" }
        [⟨503, [], "e"⟩, ⟨503, [], "e"⟩, ⟨200, [], "ok"⟩] (-1)).2 = min 4 ((-1) + 1)) :=
  ⟨rfl, rfl, rfl, by decide, by decide,
    send_request_retry_503 { max_retries := 5 } rfl (fun _ => "SIG") "D"
      { http_method := "GET" } rfl rfl [] [] [] "e" "e" "ok" (-1) (by decide) (by decide)⟩

/-- When a counter has exceeded its maximum the loop raises GsError with
the operations accumulated so far, whatever the remaining script. -/
theorem send_loop_counters_exceeded (c : GsClientCfg) (sign : String → String)
    (dateStr : String) (a : RequestArgs) (script : List GsResponse)
    (prevOp : Option GsOperation) (redirectLoc : Option String)
    (retries redirects : Nat) (b : Int) (ops : List GsOperation)
    (h : ¬(retries ≤ c.max_retries ∧ redirects ≤ c.max_redirects)) :
    send_loop c sign dateStr a script prevOp redirectLoc retries redirects b ops =
      (SendResult.serviceFailure ops, b) := by
  cases script <;> cases redirectLoc <;> · rw [send_loop, if_neg h]

/-! ## C6: retry exhaustion raises ServiceFailure with the full trail -/

/-- C6: with `max_retries = 0` and the default code sets, a `send_request`
whose first response has status 500 ends as a ServiceFailure whose
diagnostic list is exactly the one attempted Operation (independently of
any further scripted responses). -/
theorem send_request_exhaustion (c : GsClientCfg) (hmr : c.max_retries = 0)
    (sign : String → String) (dateStr : String) (a : RequestArgs)
    (hsc : a.success_status_codes = DEFAULT_SUCCESS_CODES)
    (hrc : a.retryable_status_codes = DEFAULT_RETRYABLE_CODES)
    (hs1 : List (String × String)) (b1 : String) (rest : List GsResponse) (b0 : Int) :
    (send_request c sign dateStr a (⟨500, hs1, b1⟩ :: rest) b0).1 =
      SendResult.serviceFailure
        [(exec_operation
            (create_init_operation c sign dateStr a.http_method a.bucket a.key
              a.extra_headers a.query_parameters a.infileLen)
            ⟨500, hs1, b1⟩ a.success_status_codes a.hasOutfile).operation] := by
  unfold send_request
  simp [send_loop, send_loop_counters_exceeded, hmr, hsc, hrc,
    exec_operation_operation_eq, DEFAULT_SUCCESS_CODES, DEFAULT_RETRYABLE_CODES,
    REDIRECT_CODES]

/-- C6 (witness): a concrete exhaustion run: ServiceFailure carrying
exactly the single attempted operation. -/
theorem send_request_exhaustion_witness :
    ({ max_retries := 0 } : GsClientCfg).max_retries = 0 ∧
    ({ http_method := "GET" } : RequestArgs).success_status_codes = DEFAULT_SUCCESS_CODES ∧
    ({ http_method := "GET" } : RequestArgs).retryable_status_codes = DEFAULT_RETRYABLE_CODES ∧
    (send_request { max_retries := 0 } (fun _ => "SIG") "D" { http_method := "GET" }
        [⟨500, [], "err"⟩] (-1)).1 =
      SendResult.serviceFailure
        [(exec_operation
            (create_init_operation { max_retries := 0 } (fun _ => "SIG") "D"
              ({ http_method := "GET" } : RequestArgs).http_method
              ({ http_method := "GET" } : RequestArgs).bucket
              ({ http_method := "GET" } : RequestArgs).key
              ({ http_method := "GET" } : RequestArgs).extra_headers
              ({ http_method := "GET" } : RequestArgs).query_parameters
              ({ http_method := "GET" } : RequestArgs).infileLen)
            ⟨500, [], "err"⟩
            ({ http_method := "GET" } : RequestArgs).success_status_codes
            ({ http_method := "GET" } : RequestArgs).hasOutfile).operation] :=
  ⟨rfl, rfl, rfl,
    send_request_exhaustion { max_retries := 0 } rfl (fun _ => "SIG") "D"
      { http_method := "GET" } rfl rfl [] "err" [] (-1)⟩

/-! ## C5: the redirect loop -/

/-- Evaluating `_create_redirect_operation` on the claim's Location URL
for a proxy-less client: connect to `otherhost:80`, keep the method, take
the URL path, and copy the headers with Host overwritten to the netloc. -/
theorem create_redirect_operation_otherhost (c : GsClientCfg)
    (hproxy : truthyS c.proxy_host = false) (prev : GsOperation) :
    create_redirect_operation c prev "http://otherhost/bucket2/key2" =
      { connection_host := "otherhost"
        connection_port := 80
        request_method := prev.request_method
        request_path_and_query := "/bucket2/key2"
        request_headers := dictInsert prev.request_headers "Host" "otherhost" } := by
  unfold create_redirect_operation
  rw [hproxy]
  rfl

/-- C5 (counterexample): a client with `max_redirects = 0` and the claim's
transport script records only 1 Operation and fails, so the claim does not
hold of every `send_request` call with that response sequence. -/
theorem send_request_redirect_cex :
    ¬(∃ op1 op2,
      (send_request { max_redirects := 0 } (fun _ => "SIG") "D" { http_method := "GET" }
          [⟨301, [("location", "http://otherhost/bucket2/key2")], "m"⟩, ⟨200, [], "ok"⟩]
          (-1)).1 = SendResult.success [op1, op2] ∧
        op2.connection_host = "otherhost" ∧
        op2.request_path_and_query = "/bucket2/key2" ∧
        op2.request_method = op1.request_method ∧
        op2.request_headers = dictInsert op1.request_headers "Host" "otherhost") := by
  intro hother
  obtain ⟨op1, op2, heq, hskip⟩ := hother
  have hfail : (send_request { max_redirects := 0 } (fun _ => "SIG") "D"
      { http_method := "GET" }
      [⟨301, [("location", "http://otherhost/bucket2/key2")], "m"⟩, ⟨200, [], "ok"⟩]
      (-1)).1.isSuccess = false := by decide
  rw [heq] at hfail
  simp [SendResult.isSuccess] at hfail

/-- C5 (amended): for every proxy-less client with `max_redirects ≥ 1` and
the default success codes, a `send_request` whose first response is a 301
carrying `Location: http://otherhost/bucket2/key2` and whose second
response is 200 records exactly 2 Operations and succeeds; the second
operation targets host `otherhost` (port 80) with path `/bucket2/key2`,
keeps the first operation's method, and its headers are a copy of the
first attempt's with Host overwritten to the new target. -/
theorem send_request_redirect (c : GsClientCfg)
    (hproxy : truthyS c.proxy_host = false) (hmr : 1 ≤ c.max_redirects)
    (sign : String → String) (dateStr : String) (a : RequestArgs)
    (hsc : a.success_status_codes = DEFAULT_SUCCESS_CODES)
    (hs1 : List (String × String))
    (hloc : dictGet hs1 "location" = some "http://otherhost/bucket2/key2")
    (b1 : String) (hs2 : List (String × String)) (b2 : String) (b0 : Int) :
    ∃ op1 op2,
      (send_request c sign dateStr a
          [⟨301, hs1, b1⟩, ⟨200, hs2, b2⟩] b0).1 = SendResult.success [op1, op2] ∧
      op2.connection_host = "otherhost" ∧
      op2.connection_port = 80 ∧
      op2.request_path_and_query = "/bucket2/key2" ∧
      op2.request_method = op1.request_method ∧
      op2.request_headers = dictInsert op1.request_headers "Host" "otherhost" := by
  unfold send_request
  simp [send_loop, hmr, hsc, hloc, exec_operation_operation_eq,
    create_redirect_operation_otherhost c hproxy,
    DEFAULT_SUCCESS_CODES, REDIRECT_CODES]
  exact ⟨_, _, ⟨rfl, rfl⟩, rfl, rfl, rfl, rfl, rfl⟩

/-- C5 (witness): the amended redirect statement for a default client. -/
theorem send_request_redirect_witness :
    truthyS ({} : GsClientCfg).proxy_host = false ∧
    1 ≤ ({} : GsClientCfg).max_redirects ∧
    ({ http_method := "GET" } : RequestArgs).success_status_codes = DEFAULT_SUCCESS_CODES ∧
    dictGet [("location", "http://otherhost/bucket2/key2")] "location" =
      some "http://otherhost/bucket2/key2" ∧
    (∃ op1 op2,
      (send_request {} (fun _ => "SIG") "D" { http_method := "GET" }
          [⟨301, [("location", "http://otherhost/bucket2/key2")], "m"⟩, ⟨200, [], "ok"⟩]
          (-1)).1 = SendResult.success [op1, op2] ∧
      op2.connection_host = "otherhost" ∧
      op2.connection_port = 80 ∧
      op2.request_path_and_query = "/bucket2/key2" ∧
      op2.request_method = op1.request_method ∧
      op2.request_headers = dictInsert op1.request_headers "Host" "otherhost") :=
  ⟨by decide, by decide, rfl, by decide,
    send_request_redirect {} (by decide) (by decide) (fun _ => "SIG") "D"
      { http_method := "GET" } rfl [("location", "http://otherhost/bucket2/key2")]
      (by decide) "m" [] "ok" (-1)⟩

/-! ## C7: the backoff exponent invariant -/

/-- An abstract backoff adjustment: one call to `_backoff_increment` or
`_backoff_decrement`. -/
inductive BackoffAdj where
  | inc
  | dec

/-- Apply a sequence of backoff adjustments to an exponent. -/
def applyAdjs (l : List BackoffAdj) (b : Int) : Int :=
  l.foldl
    (fun acc x =>
      match x with
      | BackoffAdj.inc => backoff_increment acc
      | BackoffAdj.dec => backoff_decrement acc)
    b

theorem applyAdjs_bounds (l : List BackoffAdj) :
    ∀ b : Int, -1 ≤ b → b ≤ 5 → -1 ≤ applyAdjs l b ∧ applyAdjs l b ≤ 5 := by
  induction l with
  | nil => intro b h1 h2; exact ⟨h1, h2⟩
  | cons x xs ih =>
    intro b h1 h2
    cases x
    · exact ih _ (backoff_increment_bounds b h1 h2).1 (backoff_increment_bounds b h1 h2).2
    · exact ih _ (backoff_decrement_bounds b h1 h2).1 (backoff_decrement_bounds b h1 h2).2

/-- The request loop only moves the backoff exponent by clamped increments
and decrements, so it preserves the range [-1, 5]. -/
theorem send_loop_backoff_bounds (c : GsClientCfg) (sign : String → String)
    (dateStr : String) (a : RequestArgs) (script : List GsResponse) :
    ∀ (prevOp : Option GsOperation) (redirectLoc : Option String)
      (retries redirects : Nat) (b : Int) (ops : List GsOperation),
      -1 ≤ b → b ≤ 5 →
      -1 ≤ (send_loop c sign dateStr a script prevOp redirectLoc retries
          redirects b ops).2 ∧
        (send_loop c sign dateStr a script prevOp redirectLoc retries
          redirects b ops).2 ≤ 5 := by
  induction script with
  | nil =>
    intro prevOp redirectLoc retries redirects b ops h1 h2
    by_cases h : retries ≤ c.max_retries ∧ redirects ≤ c.max_redirects
    · rw [send_loop, if_pos h]
      exact ⟨h1, h2⟩
    · rw [send_loop_counters_exceeded _ _ _ _ _ _ _ _ _ _ _ h]
      exact ⟨h1, h2⟩
  | cons r rest ih =>
    intro prevOp redirectLoc retries redirects b ops h1 h2
    by_cases h : retries ≤ c.max_retries ∧ redirects ≤ c.max_redirects
    · cases redirectLoc <;>
        · rw [send_loop, if_pos h]
          dsimp only
          split
          · exact backoff_decrement_bounds b h1 h2
          · split
            · split
              · exact backoff_decrement_bounds b h1 h2
              · exact ih _ _ _ _ _ _ (backoff_decrement_bounds b h1 h2).1
                  (backoff_decrement_bounds b h1 h2).2
            · split
              · exact ih _ _ _ _ _ _ (backoff_increment_bounds b h1 h2).1
                  (backoff_increment_bounds b h1 h2).2
              · exact backoff_increment_bounds b h1 h2
    · rw [send_loop_counters_exceeded _ _ _ _ _ _ _ _ _ _ _ h]
      exact ⟨h1, h2⟩

/-- C7: the backoff exponent is an invariant of the client: from the
initial value -1, every sequence of increments and decrements stays within
[-1, 5]; and every `send_request` call started at an exponent in [-1, 5]
ends at an exponent in [-1, 5]. -/
theorem backoff_exponent_invariant :
    (∀ l : List BackoffAdj, -1 ≤ applyAdjs l (-1) ∧ applyAdjs l (-1) ≤ 5) ∧
    (∀ (c : GsClientCfg) (sign : String → String) (dateStr : String)
        (a : RequestArgs) (script : List GsResponse) (b0 : Int),
      -1 ≤ b0 → b0 ≤ 5 →
      -1 ≤ (send_request c sign dateStr a script b0).2 ∧
        (send_request c sign dateStr a script b0).2 ≤ 5) :=
  ⟨fun l => applyAdjs_bounds l (-1) (by decide) (by decide),
    fun c sign dateStr a script b0 h1 h2 =>
      send_loop_backoff_bounds c sign dateStr a script none none 0 0 b0 [] h1 h2⟩

/-- C7 (witness): the invariant at a concrete adjustment sequence and a
concrete one-response call. -/
theorem backoff_exponent_invariant_witness :
    (-1 ≤ applyAdjs [BackoffAdj.inc, BackoffAdj.inc, BackoffAdj.dec] (-1) ∧
      applyAdjs [BackoffAdj.inc, BackoffAdj.inc, BackoffAdj.dec] (-1) ≤ 5) ∧
    ((-1 : Int) ≤ -1 ∧ (-1 : Int) ≤ 5 ∧
      (-1 ≤ (send_request {} (fun _ => "SIG") "D" { http_method := "GET" }
          [⟨200, [], "ok"⟩] (-1)).2 ∧
        (send_request {} (fun _ => "SIG") "D" { http_method := "GET" }
          [⟨200, [], "ok"⟩] (-1)).2 ≤ 5)) :=
  ⟨backoff_exponent_invariant.1 [BackoffAdj.inc, BackoffAdj.inc, BackoffAdj.dec],
    by decide, by decide,
    backoff_exponent_invariant.2 {} (fun _ => "SIG") "D" { http_method := "GET" }
      [⟨200, [], "ok"⟩] (-1) (by decide) (by decide)⟩

/-! ## C4: the ACL XML round trip -/

theorem elemsByTagList_append (t : String) (a b : List Xml) :
    elemsByTagList t (a ++ b) = elemsByTagList t a ++ elemsByTagList t b := by
  induction a with
  | nil => rfl
  | cons x xs ih =>
    simp only [List.cons_append, elemsByTagList, List.append_eq, ih, List.append_assoc]

/-- Searching a conditional single text element: it matches exactly when
present and its tag is the searched one. -/
theorem elems_cond_textElem (t n : String) (c : Bool) (s : String) :
    elemsByTagList t (if c then [textElem n s] else []) =
      if c && (n == t) then [textElem n s] else [] := by
  cases c
  · rfl
  · simp only [if_true, Bool.true_and, elemsByTagList, elemsInNode, textElem,
      List.append_nil]

/-- The value of a conditionally-present text element is the field itself:
an omitted (empty) field parses back to the empty string. -/
theorem value_cond_textElem (n : String) (c : Bool) (s : String)
    (h : c = false → s = "") :
    value_from_elems (if c then [textElem n s] else []) = s := by
  cases c
  · simp [value_from_elems, h rfl]
  · rfl

theorem scope_children_no_tag (t : String) (e : AclEntry)
    (h1 : ("ID" == t) = false) (h2 : ("Name" == t) = false)
    (h3 : ("EmailAddress" == t) = false) (h4 : ("Domain" == t) = false) :
    elemsByTagList t (scopeChildren e) = [] := by
  unfold scopeChildren
  rw [elemsByTagList_append, elemsByTagList_append, elemsByTagList_append,
    elems_cond_textElem, elems_cond_textElem, elems_cond_textElem, elems_cond_textElem]
  simp [h1, h2, h3, h4]

theorem entry_children_no_tag (t : String) (e : AclEntry)
    (hP : ("Permission" == t) = false) (hS : ("Scope" == t) = false)
    (h1 : ("ID" == t) = false) (h2 : ("Name" == t) = false)
    (h3 : ("EmailAddress" == t) = false) (h4 : ("Domain" == t) = false) :
    elemsByTagList t (entryChildren e) = [] := by
  unfold entryChildren
  rw [elemsByTagList_append, elems_cond_textElem]
  cases h : anyScope e
  · simp [hP, elemsByTagList]
  · simp [hP, elemsByTagList, elemsInNode, scopeElem, hS,
      scope_children_no_tag t e h1 h2 h3 h4]

theorem entries_forest_no_tag (t : String) (es : List AclEntry)
    (hE : ("Entry" == t) = false)
    (hP : ("Permission" == t) = false) (hS : ("Scope" == t) = false)
    (h1 : ("ID" == t) = false) (h2 : ("Name" == t) = false)
    (h3 : ("EmailAddress" == t) = false) (h4 : ("Domain" == t) = false) :
    elemsByTagList t (es.map entryToXml) = [] := by
  induction es with
  | nil => rfl
  | cons e rest ih =>
    simp only [List.map_cons, elemsByTagList, elemsInNode, entryToXml, hE, if_false,
      List.nil_append, ih, List.append_nil]
    simp [entry_children_no_tag t e hP hS h1 h2 h3 h4]

theorem owner_children_no_tag (t : String) (acl : GsAccessControlList)
    (h1 : ("ID" == t) = false) (h2 : ("Name" == t) = false) :
    elemsByTagList t (ownerChildren acl) = [] := by
  unfold ownerChildren
  rw [elemsByTagList_append, elems_cond_textElem, elems_cond_textElem]
  simp [h1, h2]

theorem bool_if_false {α : Sort _} (x y : α) : (if (false : Bool) then x else y) = y :=
  rfl

theorem bool_if_true {α : Sort _} (x y : α) : (if (true : Bool) then x else y) = x :=
  rfl

/-- The value of a conditionally-emitted field element round-trips to the
field: an omitted (empty) field parses back to the empty string. -/
theorem value_cond_field (n s : String) :
    value_from_elems (if s != "" then [textElem n s] else []) = s := by
  by_cases h : s = ""
  · subst h; rfl
  · have hb : (s != "") = true := by simp [bne_iff_ne, h]
    rw [if_pos hb]
    rfl

theorem scope_byTag_ID (e : AclEntry) :
    (scopeElem e).byTag "ID" =
      (if e.scope_user_id != "" then [textElem "ID" e.scope_user_id] else []) := by
  show elemsByTagList "ID" (scopeChildren e) = _
  unfold scopeChildren
  rw [elemsByTagList_append, elemsByTagList_append, elemsByTagList_append,
    elems_cond_textElem, elems_cond_textElem, elems_cond_textElem, elems_cond_textElem]
  simp

theorem scope_byTag_Name (e : AclEntry) :
    (scopeElem e).byTag "Name" =
      (if e.scope_user_name != "" then [textElem "Name" e.scope_user_name] else []) := by
  show elemsByTagList "Name" (scopeChildren e) = _
  unfold scopeChildren
  rw [elemsByTagList_append, elemsByTagList_append, elemsByTagList_append,
    elems_cond_textElem, elems_cond_textElem, elems_cond_textElem, elems_cond_textElem]
  simp

theorem scope_byTag_Email (e : AclEntry) :
    (scopeElem e).byTag "EmailAddress" =
      (if e.scope_email != "" then [textElem "EmailAddress" e.scope_email] else []) := by
  show elemsByTagList "EmailAddress" (scopeChildren e) = _
  unfold scopeChildren
  rw [elemsByTagList_append, elemsByTagList_append, elemsByTagList_append,
    elems_cond_textElem, elems_cond_textElem, elems_cond_textElem, elems_cond_textElem]
  simp

theorem scope_byTag_Domain (e : AclEntry) :
    (scopeElem e).byTag "Domain" =
      (if e.scope_domain != "" then [textElem "Domain" e.scope_domain] else []) := by
  show elemsByTagList "Domain" (scopeChildren e) = _
  unfold scopeChildren
  rw [elemsByTagList_append, elemsByTagList_append, elemsByTagList_append,
    elems_cond_textElem, elems_cond_textElem, elems_cond_textElem, elems_cond_textElem]
  simp

theorem scope_type_attr (e : AclEntry) :
    (scopeElem e).getAttribute "type" = e.scope_type := by
  unfold scopeElem Xml.getAttribute
  by_cases h : e.scope_type = ""
  · simp [h, dictGet]
  · have hb : (e.scope_type != "") = true := by simp [bne_iff_ne, h]
    rw [if_pos hb]
    rfl

theorem entry_byTag_Permission (e : AclEntry) :
    (entryToXml e).byTag "Permission" =
      (if e.permission != "" then [textElem "Permission" e.permission] else []) := by
  show elemsByTagList "Permission" (entryChildren e) = _
  unfold entryChildren
  rw [elemsByTagList_append, elems_cond_textElem]
  cases h : anyScope e
  · simp [elemsByTagList]
  · simp [elemsByTagList, elemsInNode, scopeElem,
      scope_children_no_tag "Permission" e (by decide) (by decide) (by decide) (by decide)]

theorem entry_byTag_Scope (e : AclEntry) :
    (entryToXml e).byTag "Scope" = (if anyScope e then [scopeElem e] else []) := by
  show elemsByTagList "Scope" (entryChildren e) = _
  unfold entryChildren
  rw [elemsByTagList_append, elems_cond_textElem]
  cases h : anyScope e
  · simp [elemsByTagList]
  · simp [elemsByTagList, elemsInNode, scopeElem,
      scope_children_no_tag "Scope" e (by decide) (by decide) (by decide) (by decide)]

/-- Parsing the generated `<Entry>` element reproduces the entry exactly
(omitted fields come back as `''`, which is how absence is encoded). -/
theorem parseEntry_entryToXml (e : AclEntry) : parseEntry (entryToXml e) = e := by
  simp only [parseEntry, entry_byTag_Permission, entry_byTag_Scope, value_cond_field]
  cases h : anyScope e
  · obtain ⟨p, st, uid, un, em, dom⟩ := e
    simp only [anyScope] at h
    simp only [Bool.or_eq_false_iff, bne_eq_false_iff_eq] at h
    obtain ⟨⟨⟨⟨h1, h2⟩, h3⟩, h4⟩, h5⟩ := h
    subst h1; subst h2; subst h3; subst h4; subst h5
    rfl
  · simp only [if_true, List.foldl_cons, List.foldl_nil, scope_type_attr,
      scope_byTag_ID, scope_byTag_Name, scope_byTag_Email, scope_byTag_Domain,
      value_cond_field]

theorem map_parseEntry_entryToXml (es : List AclEntry) :
    (es.map entryToXml).map parseEntry = es := by
  induction es with
  | nil => rfl
  | cons e rest ih => simp [parseEntry_entryToXml e, ih]

theorem map_comp_parseEntry (es : List AclEntry) :
    List.map (parseEntry ∘ entryToXml) es = es := by
  induction es with
  | nil => rfl
  | cons e rest ih => simp [Function.comp, parseEntry_entryToXml e, ih]

theorem entries_byTag_Entry (es : List AclEntry) :
    elemsByTagList "Entry" (es.map entryToXml) = es.map entryToXml := by
  induction es with
  | nil => rfl
  | cons e rest ih =>
    simp only [List.map_cons, elemsByTagList, elemsInNode, entryToXml]
    simp [ih, entry_children_no_tag "Entry" e (by decide) (by decide) (by decide)
      (by decide) (by decide) (by decide)]

theorem entriesElem_byTag_Entry (acl : GsAccessControlList) :
    (entriesElem acl).byTag "Entry" = acl.entries.map entryToXml := by
  show elemsByTagList "Entry" (acl.entries.map entryToXml) = _
  exact entries_byTag_Entry acl.entries

theorem owner_value_ID (acl : GsAccessControlList) :
    value_from_elems ((ownerElem acl).byTag "ID") = acl.owner_id := by
  show value_from_elems (elemsByTagList "ID" (ownerChildren acl)) = _
  unfold ownerChildren
  rw [elemsByTagList_append, elems_cond_textElem, elems_cond_textElem]
  simp only [show (("ID" == "ID") : Bool) = true from rfl,
    show (("Name" == "ID") : Bool) = false from rfl, Bool.and_true, Bool.and_false,
    bool_if_false, List.append_nil]
  exact value_cond_field "ID" acl.owner_id

theorem owner_value_Name (acl : GsAccessControlList) :
    value_from_elems ((ownerElem acl).byTag "Name") = acl.owner_name := by
  show value_from_elems (elemsByTagList "Name" (ownerChildren acl)) = _
  unfold ownerChildren
  rw [elemsByTagList_append, elems_cond_textElem, elems_cond_textElem]
  simp only [show (("ID" == "Name") : Bool) = false from rfl,
    show (("Name" == "Name") : Bool) = true from rfl, Bool.and_true, Bool.and_false,
    bool_if_false, List.nil_append]
  exact value_cond_field "Name" acl.owner_name

theorem acl_byTag_Owner (acl : GsAccessControlList) :
    elemsByTagList "Owner" [aclToXml acl] =
      (if acl.owner_id != "" || acl.owner_name != "" then [ownerElem acl] else []) := by
  unfold aclToXml
  cases h1 : (acl.owner_id != "" || acl.owner_name != "") <;>
    cases h2 : acl.entries.isEmpty <;>
      simp [elemsByTagList, elemsInNode, elemsByTagList_append, ownerElem, entriesElem,
        owner_children_no_tag "Owner" acl (by decide) (by decide),
        entries_forest_no_tag "Owner" acl.entries (by decide) (by decide) (by decide)
          (by decide) (by decide) (by decide) (by decide)]

theorem acl_byTag_Entries (acl : GsAccessControlList) :
    elemsByTagList "Entries" [aclToXml acl] =
      (if acl.entries.isEmpty then [] else [entriesElem acl]) := by
  unfold aclToXml
  cases h1 : (acl.owner_id != "" || acl.owner_name != "") <;>
    cases h2 : acl.entries.isEmpty <;>
      simp [elemsByTagList, elemsInNode, elemsByTagList_append, ownerElem, entriesElem,
        owner_children_no_tag "Entries" acl (by decide) (by decide),
        entries_forest_no_tag "Entries" acl.entries (by decide) (by decide) (by decide)
          (by decide) (by decide) (by decide) (by decide)]

/-- The XML round trip is the identity on `GsAccessControlList` at the
document-tree level. -/
theorem parseAcl_aclToXml (acl : GsAccessControlList) :
    parseAcl (aclToXml acl) = acl := by
  obtain ⟨oid, oname, es⟩ := acl
  simp only [parseAcl, acl_byTag_Owner, acl_byTag_Entries]
  cases h1 : (oid != "" || oname != "")
  · simp only [Bool.or_eq_false_iff, bne_eq_false_iff_eq] at h1
    obtain ⟨hid, hname⟩ := h1
    subst hid; subst hname
    cases h2 : es.isEmpty
    · have hne : es ≠ [] := by
        cases es
        · simp at h2
        · simp
      simp [List.foldl_nil, entriesElem_byTag_Entry, map_comp_parseEntry,
        map_parseEntry_entryToXml, h2]
    · have : es = [] := by
        cases es
        · rfl
        · simp at h2
      subst this
      rfl
  · cases h2 : es.isEmpty
    · simp [List.foldl_cons, List.foldl_nil, owner_value_ID, owner_value_Name,
        entriesElem_byTag_Entry, map_comp_parseEntry, map_parseEntry_entryToXml]
    · have : es = [] := by
        cases es
        · rfl
        · simp at h2
      subst this
      simp [owner_value_ID, owner_value_Name]

/-- C4: the AccessControlList round-trips through its XML serialisation:
for every ACL with at least one entry whose six fields are all non-empty,
parsing the serialisation reproduces the owner_id, owner_name and the
entry sequence (in fact the round trip is the identity, so every non-empty
field is reproduced). -/
theorem acl_xml_roundtrip (acl : GsAccessControlList)
    (h : ∃ e ∈ acl.entries, e.permission ≠ "" ∧ e.scope_type ≠ "" ∧
      e.scope_user_id ≠ "" ∧ e.scope_user_name ≠ "" ∧ e.scope_email ≠ "" ∧
      e.scope_domain ≠ "") :
    (parseAcl (aclToXml acl)).owner_id = acl.owner_id ∧
    (parseAcl (aclToXml acl)).owner_name = acl.owner_name ∧
    (parseAcl (aclToXml acl)).entries = acl.entries := by
  rw [parseAcl_aclToXml]
  exact ⟨rfl, rfl, rfl⟩

/-- A sample ACL with one fully-populated entry, for the round-trip
witness. -/
def sampleEntry : AclEntry :=
  { permission := "READ", scope_type := "UserById", scope_user_id := "u",
    scope_user_name := "n", scope_email := "e@x", scope_domain := "d" }

/-- A sample ACL holding the fully-populated sample entry. -/
def sampleAcl : GsAccessControlList :=
  { owner_id := "oid", owner_name := "on", entries := [sampleEntry] }

/-- C4 (witness): the round trip at a concrete ACL whose single entry has
all six fields populated. -/
theorem acl_xml_roundtrip_witness :
    (∃ e ∈ sampleAcl.entries, e.permission ≠ "" ∧ e.scope_type ≠ "" ∧
      e.scope_user_id ≠ "" ∧ e.scope_user_name ≠ "" ∧ e.scope_email ≠ "" ∧
      e.scope_domain ≠ "") ∧
    ((parseAcl (aclToXml sampleAcl)).owner_id = sampleAcl.owner_id ∧
      (parseAcl (aclToXml sampleAcl)).owner_name = sampleAcl.owner_name ∧
      (parseAcl (aclToXml sampleAcl)).entries = sampleAcl.entries) :=
  ⟨by decide, acl_xml_roundtrip sampleAcl (by decide)⟩

end Gslite
